import Mathlib

/-!
Verification of the whastra tool layer: the XML context-hydration
pipeline (`airtable-xml.ts`), the optional-capability guards of the
integration tools (`airtable.ts`, `web.ts`), and the webhook URL
normalizer (`joinWebhookUrl`).

Records of the tabular store are modelled as association lists of field
values; the store itself is a function from (table, record id) to the
outcome of one `fetch`, which can be a parsed 2xx record, a non-2xx
response, or a rejected promise (a thrown exception).  Every tool
`execute` is embedded as a total function returning its structured
result together with the trace of outbound requests it issued.
-/

namespace Whastra

/-- A JS field value as stored on a record: a text field or an array of
linked record ids (Airtable linked-record relation fields). -/
inductive FieldValue where
  | str (s : String)
  | ids (l : List String)
deriving DecidableEq

/-- Model of `record.fields` — an association list from field name to value. -/
abbrev Fields := List (String × FieldValue)

/-- Lookup `fields[name]` — JS property lookup, `none` for `undefined`. -/
def getField (f : Fields) (name : String) : Option FieldValue :=
  (f.find? (fun p => p.1 == name)).map (fun p => p.2)

/-- JS truthiness of a field value: the empty string is falsy, every
array (even the empty one) is a truthy object. -/
def FieldValue.truthy : FieldValue → Bool
  | .str s => s != ""
  | .ids _ => true

/-- JS template-string interpolation of a field value (an array
stringifies by joining its elements with commas). -/
def FieldValue.text : FieldValue → String
  | .str s => s
  | .ids l => String.intercalate "," l

/-- JS `a || b` over env/config strings, where the empty string stands
for an unset (falsy) variable. -/
def jsOr (a b : String) : String := if a = "" then b else a

/-- The process environment variables read by the tools; the empty
string represents an unset variable. -/
structure Env where
  AIRTABLE_PAT : String := ""
  AIRTABLE_API_KEY : String := ""
  AIRTABLE_TOKEN : String := ""
  AIRTABLE_BASE_ID : String := ""
  AIRTABLE_CONTENT_BASE_ID : String := ""
  AIRTABLE_TABLE_CONTENT_INITIATORS : String := ""
  AIRTABLE_FIELD_XML_BUNDLE : String := ""
  AIRTABLE_TABLE_PERSONAS : String := ""
  AIRTABLE_TABLE_DOMAINS : String := ""
  AIRTABLE_TABLE_ENTITIES : String := ""
  AIRTABLE_TABLE_REFERENCES : String := ""
  AIRTABLE_API_BASE_URL : String := ""
  AIRTABLE_CRM_BASE_ID : String := ""
  AIRTABLE_CONTENT_HUB_BASE_ID : String := ""
  AIRTABLE_AUTOMATION_BASE_ID : String := ""
  AIRTABLE_SOCIAL_MEDIA_BASE_ID : String := ""
  AIRTABLE_NEWSLETTER_BASE_ID : String := ""
  BROWSERBASE_API_KEY : String := ""
  MINDSDB_URL : String := ""
  MINDSDB_KEY : String := ""
  N8N_WEBHOOK_BASE : String := ""
deriving DecidableEq

/-- Outcome of one `fetch` of a record by id against the tabular store:
a parsed 2xx record, a non-2xx response (`res.ok` false), or a rejected
promise (network exception, surfaced in JS as a throw). -/
inductive FetchOutcome where
  | ok (fields : Fields)
  | httpError (status : Nat) (body : String)
  | throws (msg : String)
deriving DecidableEq

/-- The tabular store as observed by the tools: table name and record
id determine the response of `GET /{base}/{table}/{id}`. -/
abbrev Store := String → String → FetchOutcome

def FetchOutcome.isThrows : FetchOutcome → Bool
  | .throws _ => true
  | _ => false

/-- Trace of record fetches issued, as (table, record id) pairs in
issue order. -/
abbrev Trace := List (String × String)

/-- Tool input for the bundle/hydrate tools: `initiatorId` required,
`baseId` optional (empty string when absent). -/
structure ToolCtx where
  initiatorId : String
  baseId : String := ""
deriving DecidableEq

/-- Token chain `process.env.AIRTABLE_PAT || process.env.AIRTABLE_API_KEY ||
process.env.AIRTABLE_TOKEN` (airtableHeadersOrNull). -/
def airtableToken (env : Env) : String :=
  jsOr (jsOr env.AIRTABLE_PAT env.AIRTABLE_API_KEY) env.AIRTABLE_TOKEN

/-- Base id chain `context.baseId || process.env.AIRTABLE_BASE_ID ||
process.env.AIRTABLE_CONTENT_BASE_ID`. -/
def contentBaseId (env : Env) (ctx : ToolCtx) : String :=
  jsOr ctx.baseId (jsOr env.AIRTABLE_BASE_ID env.AIRTABLE_CONTENT_BASE_ID)

def initiatorTableName (env : Env) : String :=
  jsOr env.AIRTABLE_TABLE_CONTENT_INITIATORS "Content Initiators"

def personasTableName (env : Env) : String :=
  jsOr env.AIRTABLE_TABLE_PERSONAS "Personas"

def domainsTableName (env : Env) : String :=
  jsOr env.AIRTABLE_TABLE_DOMAINS "Content Domains"

def entitiesTableName (env : Env) : String :=
  jsOr env.AIRTABLE_TABLE_ENTITIES "Entity"

def referencesTableName (env : Env) : String :=
  jsOr env.AIRTABLE_TABLE_REFERENCES "References"

def bundleFieldName (env : Env) : String :=
  jsOr env.AIRTABLE_FIELD_XML_BUNDLE "BUNDLE of the XML BUNDLES"

/-- Relation read `record.fields[rel] || []` — relation fields hold arrays of record
ids in the store schema (the source types them `string[]`); an absent
field reads as the empty list. -/
def relIds (v : Option FieldValue) : List String :=
  match v with
  | some (.ids l) => l
  | _ => []

/-- Knowledge read `r?.fields?.[xmlField] || ''` — the child's knowledge-text value,
defaulting to the empty string when the field is absent. -/
def fieldOrEmpty (v : Option FieldValue) : FieldValue := v.getD (.str "")

/-- The fetch loop of `fetchByIds` (airtable-xml.ts 401-411): fetch each
id in order, keep the parsed records of 2xx responses, skip non-2xx
responses silently (`if (r.ok)`), and let a rejected fetch abort the
loop as a thrown exception. -/
def fetchRecs (store : Store) (table : String) : List String → Except String (List Fields) × Trace
  | [] => (Except.ok [], [])
  | id :: rest =>
    match store table id with
    | .throws m => (Except.error m, [(table, id)])
    | .httpError _ _ =>
      let (r, t) := fetchRecs store table rest
      (r, (table, id) :: t)
    | .ok f =>
      let (r, t) := fetchRecs store table rest
      (r.map (fun l => f :: l), (table, id) :: t)

/-- Model of `fetchByIds` (airtable-xml.ts 401-415): the fetch loop followed by
`results.map(r => (r?.fields?.[xmlField] || '') as string)
.filter(Boolean)`. -/
def fetchByIds (store : Store) (table : String) (ids : List String) (xmlField : String) :
    Except String (List FieldValue) × Trace :=
  let (r, t) := fetchRecs store table ids
  (r.map (fun recs => (recs.map (fun f => fieldOrEmpty (getField f xmlField))).filter FieldValue.truthy), t)

/-- One optional scalar line of the initiator element:
`if (init.fields[k]) xmlParts.push(...)`. -/
def scalarLine (f : Fields) (key tagName : String) : List String :=
  match getField f key with
  | some v => if v.truthy then ["    <" ++ tagName ++ ">" ++ v.text ++ "</" ++ tagName ++ ">"] else []
  | none => []

/-- The document prologue shared by both bundle modes (lines 75-81 and
440-455): `<bundle>`, the initiator element with its present scalar
fields, `</initiator>`. -/
def initiatorHeader (initiatorId : String) (f : Fields) : List String :=
  ["<bundle>", "  <initiator id=\"" ++ initiatorId ++ "\">"]
    ++ scalarLine f "Goal" "goal"
    ++ scalarLine f "Content Type" "contentType"
    ++ scalarLine f "Output Type" "outputType"
    ++ ["  </initiator>"]

/-- Category container of the hydrated document (lines 457-491): opened
only when the collected list is non-empty (`if (xs.length > 0)`), one
indented line per collected text. -/
def categoryBlock (tag : String) (texts : List FieldValue) : List String :=
  if texts.length > 0 then
    ("  <" ++ tag ++ ">") :: (texts.map (fun v => "    " ++ v.text) ++ ["  </" ++ tag ++ ">"])
  else []

/-- The hydrated document assembly (lines 440-495), including the final
`xmlParts.filter(Boolean).join('\n')`. -/
def assembleHydratedXml (initiatorId : String) (f : Fields)
    (personaXml domainXml entityXml referenceXml : List FieldValue) : String :=
  let parts := initiatorHeader initiatorId f
    ++ categoryBlock "personas" personaXml
    ++ categoryBlock "domains" domainXml
    ++ categoryBlock "entities" entityXml
    ++ categoryBlock "references" referenceXml
    ++ ["</bundle>"]
  String.intercalate "\n" (parts.filter (fun s => s != ""))

/-- The `linkedCounts` of the hydrated result. -/
structure LinkedCounts where
  personas : Nat
  domains : Nat
  entities : Nat
  references : Nat
deriving DecidableEq

/-- Result values of `airtableGetHydratedContentContext.execute`:
`{ok:false, skipped:true, reason}`, `{ok:false, status, reason}`,
`{ok:false, error}` (from the catch-all), or the success object. -/
inductive HydrateResult where
  | skipped (reason : String)
  | storeError (status : Nat) (reason : String)
  | caught (error : String)
  | success (mode initiatorId xml : String) (linkedCounts : LinkedCounts)
deriving DecidableEq

/-- The try-block of `airtableGetHydratedContentContext.execute`
(lines 384-508): fetch the initiator, gather the four relation id
lists, hydrate each category in fixed order through `fetchByIds`, and
assemble the document.  A rejected fetch anywhere inside surfaces as
`Except.error` (a thrown exception crossing this block). -/
def hydrateBody (env : Env) (store : Store) (ctx : ToolCtx) :
    Except String HydrateResult × Trace :=
  match store (initiatorTableName env) ctx.initiatorId with
  | .throws m => (Except.error m, [(initiatorTableName env, ctx.initiatorId)])
  | .httpError status body =>
    (Except.ok (.storeError status body), [(initiatorTableName env, ctx.initiatorId)])
  | .ok f =>
    match fetchByIds store (personasTableName env) (relIds (getField f "Personas")) "XML Bundle" with
    | (Except.error m, pT) => (Except.error m, (initiatorTableName env, ctx.initiatorId) :: pT)
    | (Except.ok personaXml, pT) =>
      match fetchByIds store (domainsTableName env) (relIds (getField f "Content Domains")) "XML Bundle" with
      | (Except.error m, dT) => (Except.error m, (initiatorTableName env, ctx.initiatorId) :: (pT ++ dT))
      | (Except.ok domainXml, dT) =>
        match fetchByIds store (entitiesTableName env) (relIds (getField f "Entity")) "XML" with
        | (Except.error m, eT) =>
          (Except.error m, (initiatorTableName env, ctx.initiatorId) :: (pT ++ dT ++ eT))
        | (Except.ok entityXml, eT) =>
          match fetchByIds store (referencesTableName env) (relIds (getField f "References")) "XML" with
          | (Except.error m, rT) =>
            (Except.error m, (initiatorTableName env, ctx.initiatorId) :: (pT ++ dT ++ eT ++ rT))
          | (Except.ok referenceXml, rT) =>
            (Except.ok (.success "hydrated" ctx.initiatorId
              (assembleHydratedXml ctx.initiatorId f personaXml domainXml entityXml referenceXml)
              ⟨personaXml.length, domainXml.length, entityXml.length, referenceXml.length⟩),
             (initiatorTableName env, ctx.initiatorId) :: (pT ++ dT ++ eT ++ rT))

/-- Model of `airtableGetHydratedContentContext.execute` (lines 373-512): the two
configuration guards, then the try/catch around the body — a thrown
exception becomes `{ok:false, error}`. -/
def hydrateRun (env : Env) (store : Store) (ctx : ToolCtx) : HydrateResult × Trace :=
  if airtableToken env = "" then (.skipped "Airtable not configured (no PAT/API key)", [])
  else if contentBaseId env ctx = "" then (.skipped "No Airtable Base ID configured", [])
  else
    match hydrateBody env store ctx with
    | (Except.ok r, t) => (r, t)
    | (Except.error m, t) => (.caught m, t)

/-- Result values of `airtableGetContentBundle.execute`. -/
inductive BundleResult where
  | skipped (reason : String)
  | storeError (status : Nat) (reason : String)
  | caught (error : String)
  | prebuilt (initiatorId xml source : String)
  | assembled (initiatorId xml : String) (personas domains entities references : List String)
deriving DecidableEq

/-- JS `String.prototype.trim`: strip leading and trailing whitespace
(`Char.isWhitespace` standing for the JS whitespace class). -/
def jsTrim (s : String) : String :=
  String.mk (((s.data.dropWhile Char.isWhitespace).reverse.dropWhile Char.isWhitespace).reverse)

/-- The prebuilt-bundle test (line 59): `prebuiltXml && typeof
prebuiltXml === 'string' && prebuiltXml.trim()`.  An array value is
truthy but fails the typeof test; an absent field is falsy. -/
def prebuiltCheck : Option FieldValue → Bool
  | some (.str s) => s != "" && jsTrim s != ""
  | some (.ids _) => false
  | none => false

/-- The `  <tag linkedIds="a,b" />` line of the assembled (ids-only) bundle
(lines 84-95), emitted only when the relation is non-empty. -/
def linkedIdsLine (tag : String) (l : List String) : List String :=
  if l.length > 0 then ["  <" ++ tag ++ " linkedIds=\"" ++ String.intercalate "," l ++ "\" />"] else []

/-- The assembled-mode document (lines 75-103): initiator header, then
one linkedIds attribute line per non-empty relation, joined by newline
(no filter on this path). -/
def assembleIdsXml (initiatorId : String) (f : Fields)
    (personas domains entities references : List String) : String :=
  String.intercalate "\n"
    (initiatorHeader initiatorId f
      ++ linkedIdsLine "personas" personas
      ++ linkedIdsLine "domains" domains
      ++ linkedIdsLine "entities" entities
      ++ linkedIdsLine "references" references
      ++ ["</bundle>"])

/-- The assembled-mode result (lines 69-105). -/
def bundleAssembled (initiatorId : String) (f : Fields) : BundleResult :=
  let personas := relIds (getField f "Personas")
  let domains := relIds (getField f "Content Domains")
  let entities := relIds (getField f "Entity")
  let references := relIds (getField f "References")
  .assembled initiatorId (assembleIdsXml initiatorId f personas domains entities references)
    personas domains entities references

/-- Model of `airtableGetContentBundle.execute` (lines 32-109): guards, initiator
fetch, prebuilt-field check, else assemble from relation ids. -/
def bundleRun (env : Env) (store : Store) (ctx : ToolCtx) : BundleResult × Trace :=
  if airtableToken env = "" then (.skipped "Airtable not configured (no PAT/API key)", [])
  else if contentBaseId env ctx = "" then (.skipped "No Airtable Base ID configured", [])
  else
    match store (initiatorTableName env) ctx.initiatorId with
    | .throws m => (.caught m, [(initiatorTableName env, ctx.initiatorId)])
    | .httpError status body => (.storeError status body, [(initiatorTableName env, ctx.initiatorId)])
    | .ok f =>
      (match getField f (bundleFieldName env) with
       | some (.str s) =>
         if s != "" && jsTrim s != "" then
           BundleResult.prebuilt ctx.initiatorId s "Content Initiator bundle field"
         else bundleAssembled ctx.initiatorId f
       | _ => bundleAssembled ctx.initiatorId f,
       [(initiatorTableName env, ctx.initiatorId)])

/-- Regex `base.replace(/\/+$/, '')` — strip all trailing slashes. -/
def stripTrailingSlashes (s : String) : String :=
  String.mk ((s.data.reverse.dropWhile (fun c => c == '/')).reverse)

/-- Regex `scenario.replace(/^\/+/, '')` — strip all leading slashes. -/
def stripLeadingSlashes (s : String) : String :=
  String.mk (s.data.dropWhile (fun c => c == '/'))

/-- Regex test `/\/webhook$/.test(b)`. -/
def endsWithWebhook (s : String) : Bool :=
  "/webhook".data.isSuffixOf s.data

/-- Model of `joinWebhookUrl` (airtable.ts 78-87): normalize the n8n webhook URL,
ensuring exactly one `/webhook` segment between base and scenario. -/
def joinWebhookUrl (base scenario : String) : String :=
  let b := stripTrailingSlashes base
  let root := if endsWithWebhook b then b else b ++ "/webhook"
  let path := stripLeadingSlashes scenario
  root ++ "/" ++ path

/-- The (ok, skipped, reason) projection of a tool result object, with
`none` for a key the object does not carry.  This is the shape the
optional-capability guard contract is stated over. -/
structure GuardObs where
  ok : Option Bool
  skipped : Option Bool
  reason : Option String
deriving DecidableEq

/-- Does an invocation outcome honour the uniform guard contract: a
returned (not thrown) object with ok:false, skipped:true, a non-empty
reason, and zero outbound HTTP calls? -/
def GuardObs.uniformSkip : GuardObs → Bool
  | ⟨some false, some true, some r⟩ => r != ""
  | _ => false

def HydrateResult.obs : HydrateResult → GuardObs
  | .skipped r => ⟨some false, some true, some r⟩
  | .storeError _ r => ⟨some false, none, some r⟩
  | .caught _ => ⟨some false, none, none⟩
  | .success _ _ _ _ => ⟨some true, none, none⟩

def BundleResult.obs : BundleResult → GuardObs
  | .skipped r => ⟨some false, some true, some r⟩
  | .storeError _ r => ⟨some false, none, some r⟩
  | .caught _ => ⟨some false, none, none⟩
  | .prebuilt _ _ _ => ⟨some true, none, none⟩
  | .assembled _ _ _ _ _ _ => ⟨some true, none, none⟩

/-- Result values of `webSearch.execute` (web.ts 19-51).  With the key
absent it returns `{results:[], query, note}` — an object carrying no
`ok`, `skipped` or `reason` key at all. -/
inductive WebSearchResult where
  | unconfigured (results : List String) (query : String) (note : String)
  | placeholder (query : String) (results : List String) (note recommendation : String)
deriving DecidableEq

def WebSearchResult.obs : WebSearchResult → GuardObs
  | _ => ⟨none, none, none⟩

/-- Model of `webSearch.execute`: no fetch is issued on either path in the
current placeholder implementation; the trace is the list of outbound
request URLs. -/
def webSearchRun (env : Env) (query : String) :
    Except String WebSearchResult × List String :=
  if env.BROWSERBASE_API_KEY = "" then
    (Except.ok (.unconfigured [] query "Web search requires BROWSERBASE_API_KEY to be configured"), [])
  else
    (Except.ok (.placeholder query []
      "Web search tool is a placeholder. Integrate with Tavily, SerpAPI, or similar service."
      "Add TAVILY_API_KEY to .env and implement Tavily integration for production use."), [])

/-- Result object of `webScrape.execute` on its non-throwing path:
`{url, content, note}` — again no ok/skipped/reason keys. -/
structure WebScrapeResult where
  url : String
  content : String
  note : String
deriving DecidableEq

def WebScrapeResult.obs : WebScrapeResult → GuardObs
  | _ => ⟨none, none, none⟩

/-- Model of `webScrape.execute` (web.ts 68-87): with the key absent it THROWS
(`throw new Error('BROWSERBASE_API_KEY required for web scraping')`),
modelled as `Except.error`. -/
def webScrapeRun (env : Env) (url : String) :
    Except String WebScrapeResult × List String :=
  if env.BROWSERBASE_API_KEY = "" then
    (Except.error "BROWSERBASE_API_KEY required for web scraping", [])
  else
    (Except.ok { url := url, content := "",
                 note := "Web scraping requires Browserbase integration to be implemented" }, [])

/-- Response of the MindsDB SQL endpoint as observed: parsed 2xx JSON
(`data`, `column_names`), or a non-2xx response. -/
inductive SqlResp where
  | success (data : List (List String)) (column_names : List String)
  | failure (status : Nat) (body : String)
deriving DecidableEq

/-- The SQL bridge as a function of (url, posted query). -/
abbrev SqlHttp := String → String → SqlResp

inductive MindsdbResult where
  | skipped (reason : String)
  | httpError (status : Nat) (reason : String)
  | ok (rows : List (List String)) (columnNames : List String) (rowCount : Nat)
deriving DecidableEq

def MindsdbResult.obs : MindsdbResult → GuardObs
  | .skipped r => ⟨some false, some true, some r⟩
  | .httpError _ r => ⟨some false, none, some r⟩
  | .ok _ _ _ => ⟨some true, none, none⟩

/-- Model of `mindsdbQuery.execute` (airtable.ts bundle, mindsdb doc): guard on
MINDSDB_URL, then POST the query. -/
def mindsdbRun (env : Env) (http : SqlHttp) (sql : String) :
    MindsdbResult × List String :=
  if env.MINDSDB_URL = "" then (.skipped "MINDSDB_URL not set", [])
  else
    let url := env.MINDSDB_URL ++ "/api/sql/query"
    match http url sql with
    | .failure st b => (.httpError st b, [url])
    | .success data cols => (.ok data cols data.length, [url])

/-- A 2xx webhook response whose body may or may not parse as JSON, or a
non-2xx response. -/
inductive JsonResp where
  | success (jsonBody : Option String)
  | failure (status : Nat) (body : String)
deriving DecidableEq

/-- The webhook endpoint as a function of (url, posted payload). -/
abbrev PostHttp := String → String → JsonResp

inductive N8nResult where
  | skipped (reason : String)
  | httpError (status : Nat) (reason : String)
  | ok (data : Option String)
deriving DecidableEq

def N8nResult.obs : N8nResult → GuardObs
  | .skipped r => ⟨some false, some true, some r⟩
  | .httpError _ r => ⟨some false, none, some r⟩
  | .ok _ => ⟨some true, none, none⟩

/-- Model of `n8nTrigger.execute` (airtable.ts bundle, joinWebhookUrl variant):
guard on N8N_WEBHOOK_BASE, then POST to the normalized webhook URL;
a 2xx body that fails `res.json()` yields `data:null`. -/
def n8nTriggerRun (env : Env) (http : PostHttp) (scenario payload : String) :
    N8nResult × List String :=
  if env.N8N_WEBHOOK_BASE = "" then (.skipped "N8N_WEBHOOK_BASE not set", [])
  else
    let url := joinWebhookUrl env.N8N_WEBHOOK_BASE scenario
    match http url payload with
    | .failure st b => (.httpError st b, [url])
    | .success jb => (.ok jb, [url])

/-- A record of a list response: id plus fields. -/
structure AirRecord where
  id : String
  fields : Fields
deriving DecidableEq

/-- Response of a list-by-formula request. -/
inductive ListResp where
  | success (records : List AirRecord)
  | failure (status : Nat) (body : String)
deriving DecidableEq

abbrev QueryHttp := String → ListResp

structure FetchPersonaCtx where
  baseId : String := ""
  table : String
  view : String := ""
  slug : String
deriving DecidableEq

inductive FetchPersonaResult where
  | skipped (reason : String)
  | httpError (status : Nat) (reason : String)
  | ok (records : List AirRecord)
deriving DecidableEq

def FetchPersonaResult.obs : FetchPersonaResult → GuardObs
  | .skipped r => ⟨some false, some true, some r⟩
  | .httpError _ r => ⟨some false, none, some r⟩
  | .ok _ => ⟨some true, none, none⟩

/-- Key chain `process.env.AIRTABLE_API_KEY || process.env.AIRTABLE_PAT`
(airtable.ts 14). -/
def fetchPersonaKey (env : Env) : String :=
  jsOr env.AIRTABLE_API_KEY env.AIRTABLE_PAT

/-- The base-id fallback chain of airtableFetchPersona (airtable.ts
15-22). -/
def fetchPersonaBase (env : Env) (ctx : FetchPersonaCtx) : String :=
  jsOr ctx.baseId (jsOr env.AIRTABLE_BASE_ID (jsOr env.AIRTABLE_CRM_BASE_ID
    (jsOr env.AIRTABLE_CONTENT_HUB_BASE_ID (jsOr env.AIRTABLE_AUTOMATION_BASE_ID
      (jsOr env.AIRTABLE_SOCIAL_MEDIA_BASE_ID env.AIRTABLE_NEWSLETTER_BASE_ID)))))

/-- The list URL of airtableFetchPersona as a plain string; the URL
object's percent-encoding of query values and
`encodeURIComponent(table)` are abstracted (no claim inspects them). -/
def fetchPersonaUrl (env : Env) (ctx : FetchPersonaCtx) : String :=
  let apiBase := jsOr env.AIRTABLE_API_BASE_URL "https://api.airtable.com/v0"
  let slug := (ctx.slug.toLower).replace "\"" "\\\""
  apiBase ++ "/" ++ fetchPersonaBase env ctx ++ "/" ++ ctx.table
    ++ "?filterByFormula=LOWER(\x7bslug\x7d)=\"" ++ slug ++ "\""
    ++ (if ctx.view != "" then "&view=" ++ ctx.view else "")

/-- Model of `airtableFetchPersona.execute` (airtable.ts 13-41): single combined
guard on key and base, then the list request. -/
def airtableFetchPersonaRun (env : Env) (http : QueryHttp) (ctx : FetchPersonaCtx) :
    FetchPersonaResult × List String :=
  if fetchPersonaKey env == "" || fetchPersonaBase env ctx == "" then
    (.skipped "Airtable not configured (missing key or baseId)", [])
  else
    match http (fetchPersonaUrl env ctx) with
    | .success records => (.ok records, [fetchPersonaUrl env ctx])
    | .failure st b => (.httpError st b, [fetchPersonaUrl env ctx])

/-! ## Characterization of the child-fetch loop -/

/-- The records kept by the fetch loop when nothing throws: exactly the
parsed records of the 2xx responses, in id order. -/
def okRecords (store : Store) (table : String) (ids : List String) : List Fields :=
  ids.filterMap (fun id => match store table id with | .ok f => some f | _ => none)

/-- The collected knowledge texts of a category: the kept records'
knowledge fields, blanks filtered out. -/
def collectedTexts (store : Store) (table : String) (ids : List String) (xmlField : String) :
    List FieldValue :=
  ((okRecords store table ids).map (fun f => fieldOrEmpty (getField f xmlField))).filter FieldValue.truthy

/-- A child id resolves to non-empty knowledge text: its fetch returns
2xx and its knowledge field is (JS-)truthy. -/
def resolvesNonEmpty (store : Store) (table xmlField id : String) : Bool :=
  match store table id with
  | .ok f => (fieldOrEmpty (getField f xmlField)).truthy
  | _ => false

lemma fetchRecs_eq_of_noThrow (store : Store) (table : String) (ids : List String)
    (h : ∀ id ∈ ids, (store table id).isThrows = false) :
    fetchRecs store table ids =
      (Except.ok (okRecords store table ids), ids.map (fun id => (table, id))) := by
  induction ids with
  | nil => simp [fetchRecs, okRecords]
  | cons id rest ih =>
    have h1 : (store table id).isThrows = false := h id (List.mem_cons_self id rest)
    have h2 : ∀ i ∈ rest, (store table i).isThrows = false :=
      fun i hi => h i (List.mem_cons_of_mem id hi)
    cases hs : store table id with
    | throws m => rw [hs] at h1; simp [FetchOutcome.isThrows] at h1
    | httpError st b => simp [fetchRecs, hs, ih h2, okRecords, List.filterMap_cons]
    | ok f => simp [fetchRecs, hs, ih h2, okRecords, List.filterMap_cons, Except.map]

lemma fetchByIds_eq_of_noThrow (store : Store) (table : String) (ids : List String)
    (xmlField : String) (h : ∀ id ∈ ids, (store table id).isThrows = false) :
    fetchByIds store table ids xmlField =
      (Except.ok (collectedTexts store table ids xmlField), ids.map (fun id => (table, id))) := by
  simp [fetchByIds, fetchRecs_eq_of_noThrow store table ids h, collectedTexts, Except.map]

lemma collectedTexts_length (store : Store) (table xmlField : String) (ids : List String) :
    (collectedTexts store table ids xmlField).length =
      (ids.filter (fun id => resolvesNonEmpty store table xmlField id)).length := by
  induction ids with
  | nil => rfl
  | cons id rest ih =>
    cases hs : store table id with
    | throws m =>
      simp [collectedTexts, okRecords, List.filterMap_cons, hs, List.filter_cons,
        resolvesNonEmpty] at *
      exact ih
    | httpError st b =>
      simp [collectedTexts, okRecords, List.filterMap_cons, hs, List.filter_cons,
        resolvesNonEmpty] at *
      exact ih
    | ok f =>
      simp only [collectedTexts, okRecords, List.filterMap_cons, hs, List.map_cons,
        List.filter_cons, resolvesNonEmpty] at *
      cases ht : (fieldOrEmpty (getField f xmlField)).truthy with
      | true => simp [ht, ih]
      | false => simp [ht, ih]

/-- The four category text lists of one hydrate run over root fields
`f`, in the fixed source order and with the per-category tables and
knowledge-field names of the source. -/
def personaTexts (env : Env) (store : Store) (f : Fields) : List FieldValue :=
  collectedTexts store (personasTableName env) (relIds (getField f "Personas")) "XML Bundle"

def domainTexts (env : Env) (store : Store) (f : Fields) : List FieldValue :=
  collectedTexts store (domainsTableName env) (relIds (getField f "Content Domains")) "XML Bundle"

def entityTexts (env : Env) (store : Store) (f : Fields) : List FieldValue :=
  collectedTexts store (entitiesTableName env) (relIds (getField f "Entity")) "XML"

def referenceTexts (env : Env) (store : Store) (f : Fields) : List FieldValue :=
  collectedTexts store (referencesTableName env) (relIds (getField f "References")) "XML"

lemma hydrateBody_ok_eq (env : Env) (store : Store) (ctx : ToolCtx) (f : Fields)
    (hroot : store (initiatorTableName env) ctx.initiatorId = FetchOutcome.ok f)
    (hnt : ∀ t i, (store t i).isThrows = false) :
    hydrateBody env store ctx =
      (Except.ok (HydrateResult.success "hydrated" ctx.initiatorId
        (assembleHydratedXml ctx.initiatorId f (personaTexts env store f) (domainTexts env store f)
          (entityTexts env store f) (referenceTexts env store f))
        ⟨(personaTexts env store f).length, (domainTexts env store f).length,
          (entityTexts env store f).length, (referenceTexts env store f).length⟩),
       (initiatorTableName env, ctx.initiatorId) ::
         ((relIds (getField f "Personas")).map (fun id => (personasTableName env, id))
           ++ (relIds (getField f "Content Domains")).map (fun id => (domainsTableName env, id))
           ++ (relIds (getField f "Entity")).map (fun id => (entitiesTableName env, id))
           ++ (relIds (getField f "References")).map (fun id => (referencesTableName env, id)))) := by
  unfold hydrateBody
  rw [hroot]
  dsimp only
  rw [fetchByIds_eq_of_noThrow store (personasTableName env) _ _ (fun i _ => hnt _ i)]
  rw [fetchByIds_eq_of_noThrow store (domainsTableName env) _ _ (fun i _ => hnt _ i)]
  rw [fetchByIds_eq_of_noThrow store (entitiesTableName env) _ _ (fun i _ => hnt _ i)]
  rw [fetchByIds_eq_of_noThrow store (referencesTableName env) _ _ (fun i _ => hnt _ i)]
  rfl

lemma hydrateRun_ok_eq (env : Env) (store : Store) (ctx : ToolCtx) (f : Fields)
    (htok : airtableToken env ≠ "") (hbase : contentBaseId env ctx ≠ "")
    (hroot : store (initiatorTableName env) ctx.initiatorId = FetchOutcome.ok f)
    (hnt : ∀ t i, (store t i).isThrows = false) :
    (hydrateRun env store ctx).1 =
      HydrateResult.success "hydrated" ctx.initiatorId
        (assembleHydratedXml ctx.initiatorId f (personaTexts env store f) (domainTexts env store f)
          (entityTexts env store f) (referenceTexts env store f))
        ⟨(personaTexts env store f).length, (domainTexts env store f).length,
          (entityTexts env store f).length, (referenceTexts env store f).length⟩ := by
  unfold hydrateRun
  rw [if_neg htok, if_neg hbase, hydrateBody_ok_eq env store ctx f hroot hnt]

/-! ## Claim theorems: C1, C4, C6, C8 -/

/-- C1: if the root fetch succeeds (and the store throws no network
exception — per-child failures being non-2xx responses), hydrate
returns a successful composite document no matter how many child
fetches fail; failing children are merely excluded from their
category's collected texts (those texts being exactly the
`collectedTexts` of the 2xx children). -/
theorem C1_child_failures_swallowed (env : Env) (store : Store) (ctx : ToolCtx) (f : Fields)
    (htok : airtableToken env ≠ "") (hbase : contentBaseId env ctx ≠ "")
    (hroot : store (initiatorTableName env) ctx.initiatorId = FetchOutcome.ok f)
    (hnt : ∀ t i, (store t i).isThrows = false) :
    ∃ xml counts, (hydrateRun env store ctx).1 =
      HydrateResult.success "hydrated" ctx.initiatorId xml counts :=
  ⟨_, _, hydrateRun_ok_eq env store ctx f htok hbase hroot hnt⟩

/-- C4: a non-2xx root fetch makes hydrate return a store-error result
carrying the original status code and body, with a request trace of
exactly the one root fetch — zero child fetches. -/
theorem C4_root_failure_no_children (env : Env) (store : Store) (ctx : ToolCtx)
    (status : Nat) (body : String)
    (htok : airtableToken env ≠ "") (hbase : contentBaseId env ctx ≠ "")
    (hroot : store (initiatorTableName env) ctx.initiatorId = FetchOutcome.httpError status body) :
    hydrateRun env store ctx =
      (HydrateResult.storeError status body, [(initiatorTableName env, ctx.initiatorId)]) := by
  unfold hydrateRun
  rw [if_neg htok, if_neg hbase]
  unfold hydrateBody
  rw [hroot]

/-- C6: hydrate is deterministic in the store's contents — two runs
observing identical store responses produce identical results
(byte-identical documents in particular). -/
theorem C6_deterministic (env : Env) (store store' : Store) (ctx : ToolCtx)
    (h : ∀ t i, store t i = store' t i) :
    hydrateRun env store ctx = hydrateRun env store' ctx := by
  have hs : store = store' := funext (fun t => funext (fun i => h t i))
  rw [hs]

/-- C8: hydrate's execute always yields a typed result value: either a
guard `skipped` result, the body's own typed result, or — when the body
throws — the exception caught and returned as `{ok:false, error}`.  No
exception escapes. -/
theorem C8_no_escaping_exception (env : Env) (store : Store) (ctx : ToolCtx) :
    (∃ reason, (hydrateRun env store ctx).1 = HydrateResult.skipped reason) ∨
    (∃ r, (hydrateBody env store ctx).1 = Except.ok r ∧ (hydrateRun env store ctx).1 = r) ∨
    (∃ m, (hydrateBody env store ctx).1 = Except.error m ∧
      (hydrateRun env store ctx).1 = HydrateResult.caught m) := by
  unfold hydrateRun
  by_cases h1 : airtableToken env = ""
  · exact Or.inl ⟨_, by rw [if_pos h1]⟩
  · by_cases h2 : contentBaseId env ctx = ""
    · exact Or.inl ⟨_, by rw [if_neg h1, if_pos h2]⟩
    · rw [if_neg h1, if_neg h2]
      rcases hb : hydrateBody env store ctx with ⟨m | r, t⟩
      · exact Or.inr (Or.inr ⟨m, rfl, rfl⟩)
      · exact Or.inr (Or.inl ⟨r, rfl, rfl⟩)

/-- C3: the success result's linkedCounts report, per category, the
number M of linked ids that resolve to non-empty knowledge text (2xx
fetch and truthy field), not the number N of linked ids. -/
theorem C3_counts_resolved_not_linked (env : Env) (store : Store) (ctx : ToolCtx) (f : Fields)
    (htok : airtableToken env ≠ "") (hbase : contentBaseId env ctx ≠ "")
    (hroot : store (initiatorTableName env) ctx.initiatorId = FetchOutcome.ok f)
    (hnt : ∀ t i, (store t i).isThrows = false) :
    (hydrateRun env store ctx).1 =
      HydrateResult.success "hydrated" ctx.initiatorId
        (assembleHydratedXml ctx.initiatorId f (personaTexts env store f) (domainTexts env store f)
          (entityTexts env store f) (referenceTexts env store f))
        ⟨((relIds (getField f "Personas")).filter
            (fun id => resolvesNonEmpty store (personasTableName env) "XML Bundle" id)).length,
          ((relIds (getField f "Content Domains")).filter
            (fun id => resolvesNonEmpty store (domainsTableName env) "XML Bundle" id)).length,
          ((relIds (getField f "Entity")).filter
            (fun id => resolvesNonEmpty store (entitiesTableName env) "XML" id)).length,
          ((relIds (getField f "References")).filter
            (fun id => resolvesNonEmpty store (referencesTableName env) "XML" id)).length⟩ := by
  rw [hydrateRun_ok_eq env store ctx f htok hbase hroot hnt]
  simp only [personaTexts, domainTexts, entityTexts, referenceTexts, collectedTexts_length]

/-! ## Document shape (C5) -/

/-- The spec-side category section (§4.1 step 4): nothing at all when
the collected list is empty, else an opening container line, one line
per collected text, and a closing line. -/
def specCategoryLines (tag : String) (texts : List FieldValue) : List String :=
  match texts with
  | [] => []
  | _ => ("  <" ++ tag ++ ">") :: (texts.map (fun v => "    " ++ v.text) ++ ["  </" ++ tag ++ ">"])

lemma categoryBlock_eq_spec (tag : String) (texts : List FieldValue) :
    categoryBlock tag texts = specCategoryLines tag texts := by
  cases texts <;> simp [categoryBlock, specCategoryLines]

lemma eq_empty_of_length_zero (s : String) (h : s.length = 0) : s = "" := by
  cases s with
  | mk data =>
    have hd : data = [] := by simpa [String.length] using h
    simp [hd]

lemma append_ne_left (a b : String) (h : a ≠ "") : a ++ b ≠ "" := by
  intro hc
  apply h
  apply eq_empty_of_length_zero
  have hl := congrArg String.length hc
  rw [String.length_append] at hl
  have h0 : ("" : String).length = 0 := rfl
  rw [h0] at hl
  omega

lemma scalarLine_mem_ne (f : Fields) (key tag s : String) (h : s ∈ scalarLine f key tag) :
    s ≠ "" := by
  unfold scalarLine at h
  rcases hg : getField f key with _ | v <;> rw [hg] at h
  · simp at h
  · dsimp only at h
    split at h
    · rw [List.mem_singleton] at h
      subst h
      repeat apply append_ne_left
      decide
    · simp at h

lemma initiatorHeader_mem_ne (iid : String) (f : Fields) (s : String)
    (h : s ∈ initiatorHeader iid f) : s ≠ "" := by
  unfold initiatorHeader at h
  simp only [List.cons_append, List.nil_append, List.mem_cons, List.mem_append,
    List.mem_singleton] at h
  rcases h with h | h | ((h | h) | h) | h
  · subst h; decide
  · subst h
    repeat apply append_ne_left
    decide
  · exact scalarLine_mem_ne f "Goal" "goal" s h
  · exact scalarLine_mem_ne f "Content Type" "contentType" s h
  · exact scalarLine_mem_ne f "Output Type" "outputType" s h
  · rcases h with h | h
    · subst h; decide
    · simp at h

lemma categoryBlock_mem_ne (tag : String) (texts : List FieldValue) (s : String)
    (h : s ∈ categoryBlock tag texts) : s ≠ "" := by
  unfold categoryBlock at h
  split at h
  · simp only [List.mem_cons, List.mem_append, List.mem_map, List.mem_singleton] at h
    rcases h with h | ⟨v, _, h⟩ | h | h
    · subst h
      repeat apply append_ne_left
      decide
    · subst h
      apply append_ne_left
      decide
    · subst h
      repeat apply append_ne_left
      decide
    · simp at h
  · simp at h

lemma assembleHydratedXml_eq_spec (iid : String) (f : Fields) (p d e r : List FieldValue) :
    assembleHydratedXml iid f p d e r =
      String.intercalate "\n"
        (initiatorHeader iid f
          ++ specCategoryLines "personas" p
          ++ specCategoryLines "domains" d
          ++ specCategoryLines "entities" e
          ++ specCategoryLines "references" r
          ++ ["</bundle>"]) := by
  unfold assembleHydratedXml
  dsimp only
  have hfil : ∀ a ∈ initiatorHeader iid f ++ categoryBlock "personas" p
      ++ categoryBlock "domains" d ++ categoryBlock "entities" e
      ++ categoryBlock "references" r ++ ["</bundle>"], (a != "") = true := by
    intro a ha
    simp only [List.mem_append, List.mem_singleton] at ha
    apply bne_iff_ne.mpr
    rcases ha with ((((hh | hp) | hd) | he) | hr) | hb
    · exact initiatorHeader_mem_ne iid f a hh
    · exact categoryBlock_mem_ne "personas" p a hp
    · exact categoryBlock_mem_ne "domains" d a hd
    · exact categoryBlock_mem_ne "entities" e a he
    · exact categoryBlock_mem_ne "references" r a hr
    · subst hb; decide
  rw [List.filter_eq_self.mpr hfil]
  simp only [categoryBlock_eq_spec]

/-- C5: every successful hydrate document consists of the initiator
header followed by the category sections in the fixed order personas,
domains, entities, references, where an empty category contributes no
lines at all (no empty container), closed by the bundle end tag. -/
theorem C5_fixed_order_no_empty_container (env : Env) (store : Store) (ctx : ToolCtx) (f : Fields)
    (htok : airtableToken env ≠ "") (hbase : contentBaseId env ctx ≠ "")
    (hroot : store (initiatorTableName env) ctx.initiatorId = FetchOutcome.ok f)
    (hnt : ∀ t i, (store t i).isThrows = false) :
    (hydrateRun env store ctx).1 =
      HydrateResult.success "hydrated" ctx.initiatorId
        (String.intercalate "\n"
          (initiatorHeader ctx.initiatorId f
            ++ specCategoryLines "personas" (personaTexts env store f)
            ++ specCategoryLines "domains" (domainTexts env store f)
            ++ specCategoryLines "entities" (entityTexts env store f)
            ++ specCategoryLines "references" (referenceTexts env store f)
            ++ ["</bundle>"]))
        ⟨(personaTexts env store f).length, (domainTexts env store f).length,
          (entityTexts env store f).length, (referenceTexts env store f).length⟩ := by
  rw [hydrateRun_ok_eq env store ctx f htok hbase hroot hnt, assembleHydratedXml_eq_spec]

/-! ## Bundle modes (C7, C9) -/

def BundleResult.modePrebuilt : BundleResult → Bool
  | .prebuilt _ _ _ => true
  | _ => false

def BundleResult.modeAssembled : BundleResult → Bool
  | .assembled _ _ _ _ _ _ => true
  | _ => false

lemma trim_ne_of (s : String) (h : jsTrim s ≠ "") : s ≠ "" := by
  intro hc
  subst hc
  exact h (by decide)

lemma bundleRun_root_ok (env : Env) (store : Store) (ctx : ToolCtx) (f : Fields)
    (htok : airtableToken env ≠ "") (hbase : contentBaseId env ctx ≠ "")
    (hroot : store (initiatorTableName env) ctx.initiatorId = FetchOutcome.ok f) :
    (bundleRun env store ctx).1 =
      (match getField f (bundleFieldName env) with
       | some (.str s) =>
         if s != "" && jsTrim s != "" then
           BundleResult.prebuilt ctx.initiatorId s "Content Initiator bundle field"
         else bundleAssembled ctx.initiatorId f
       | _ => bundleAssembled ctx.initiatorId f) := by
  unfold bundleRun
  rw [if_neg htok, if_neg hbase, hroot]

/-- C9 (and the boundary of C7): the prebuilt path is taken exactly when
the bundle field holds a string with at least one non-whitespace
character; a missing field, an array value, and a whitespace-only
string all fall through to the assembled (linkedIds) mode. -/
theorem C9_prebuilt_iff_nonblank_string (env : Env) (store : Store) (ctx : ToolCtx) (f : Fields)
    (htok : airtableToken env ≠ "") (hbase : contentBaseId env ctx ≠ "")
    (hroot : store (initiatorTableName env) ctx.initiatorId = FetchOutcome.ok f) :
    ((bundleRun env store ctx).1.modePrebuilt = prebuiltCheck (getField f (bundleFieldName env)))
    ∧ ((bundleRun env store ctx).1.modeAssembled = !prebuiltCheck (getField f (bundleFieldName env)))
    ∧ (prebuiltCheck (getField f (bundleFieldName env)) = true ↔
        ∃ s, getField f (bundleFieldName env) = some (FieldValue.str s) ∧ jsTrim s ≠ "") := by
  have hb := bundleRun_root_ok env store ctx f htok hbase hroot
  refine ⟨?_, ?_, ?_⟩
  · rw [hb]
    rcases hg : getField f (bundleFieldName env) with _ | v
    · simp [prebuiltCheck, bundleAssembled, BundleResult.modePrebuilt]
    · cases v with
      | str s =>
        dsimp only
        cases hcond : (s != "" && jsTrim s != "") with
        | true => simp [hcond, prebuiltCheck, BundleResult.modePrebuilt]
        | false => simp [hcond, prebuiltCheck, bundleAssembled, BundleResult.modePrebuilt]
      | ids l => simp [prebuiltCheck, bundleAssembled, BundleResult.modePrebuilt]
  · rw [hb]
    rcases hg : getField f (bundleFieldName env) with _ | v
    · simp [prebuiltCheck, bundleAssembled, BundleResult.modeAssembled]
    · cases v with
      | str s =>
        dsimp only
        cases hcond : (s != "" && jsTrim s != "") with
        | true => simp [hcond, prebuiltCheck, BundleResult.modeAssembled]
        | false => simp [hcond, prebuiltCheck, bundleAssembled, BundleResult.modeAssembled]
      | ids l => simp [prebuiltCheck, bundleAssembled, BundleResult.modeAssembled]
  · rcases hg : getField f (bundleFieldName env) with _ | v
    · simp [prebuiltCheck]
    · cases v with
      | str s =>
        constructor
        · intro hcond
          simp only [prebuiltCheck, Bool.and_eq_true, bne_iff_ne] at hcond
          exact ⟨s, rfl, hcond.2⟩
        · rintro ⟨t, ht1, ht2⟩
          have hst : s = t := by
            simpa only [Option.some.injEq, FieldValue.str.injEq] using ht1
          subst hst
          simp only [prebuiltCheck, Bool.and_eq_true, bne_iff_ne]
          exact ⟨trim_ne_of s ht2, ht2⟩
      | ids l => simp [prebuiltCheck]

/-- C7 (amended): a bundle field holding a string with at least one
non-whitespace character makes the legacy bundle operation return that
value directly in prebuilt mode (no assembly from relation fields). -/
theorem C7_prebuilt_preferred (env : Env) (store : Store) (ctx : ToolCtx) (f : Fields) (s : String)
    (htok : airtableToken env ≠ "") (hbase : contentBaseId env ctx ≠ "")
    (hroot : store (initiatorTableName env) ctx.initiatorId = FetchOutcome.ok f)
    (hfield : getField f (bundleFieldName env) = some (FieldValue.str s))
    (hs : jsTrim s ≠ "") :
    (bundleRun env store ctx).1 =
      BundleResult.prebuilt ctx.initiatorId s "Content Initiator bundle field" := by
  rw [bundleRun_root_ok env store ctx f htok hbase hroot, hfield]
  dsimp only
  rw [if_pos]
  simp [trim_ne_of s hs, hs]

/-- Concrete environment with Airtable configured. -/
def envA : Env := { AIRTABLE_PAT := "pat", AIRTABLE_BASE_ID := "base" }

/-- Root record whose bundle field holds the non-empty but
whitespace-only string " ". -/
def rootFieldsBlank : Fields := [("BUNDLE of the XML BUNDLES", FieldValue.str " ")]

def storeBlank : Store := fun t i =>
  if t == "Content Initiators" && i == "rec1" then FetchOutcome.ok rootFieldsBlank
  else FetchOutcome.httpError 404 "not found"

/-- C7 counterexample: the root record's bundle field holds " " — a
non-empty value — yet the legacy bundle operation does not return it in
prebuilt mode; it falls through to assembled mode. -/
theorem C7_counterexample_blank_string :
    getField rootFieldsBlank (bundleFieldName envA) = some (FieldValue.str " ")
    ∧ (" " : String) ≠ ""
    ∧ (bundleRun envA storeBlank { initiatorId := "rec1" }).1.modePrebuilt = false
    ∧ (bundleRun envA storeBlank { initiatorId := "rec1" }).1.modeAssembled = true := by
  refine ⟨by decide, by decide, by decide, by decide⟩

/-- Witness for C7: a bundle field holding "<xml/>". -/
def rootFieldsPre : Fields := [("BUNDLE of the XML BUNDLES", FieldValue.str "<xml/>")]

def storePre : Store := fun t i =>
  if t == "Content Initiators" && i == "rec1" then FetchOutcome.ok rootFieldsPre
  else FetchOutcome.httpError 404 "not found"

theorem C7_prebuilt_preferred_witness :
    (bundleRun envA storePre { initiatorId := "rec1" }).1 =
      BundleResult.prebuilt "rec1" "<xml/>" "Content Initiator bundle field" :=
  C7_prebuilt_preferred envA storePre { initiatorId := "rec1" } rootFieldsPre "<xml/>"
    (by decide) (by decide) (by decide) (by decide) (by decide)

theorem C9_prebuilt_iff_nonblank_string_witness :
    ((bundleRun envA storeBlank { initiatorId := "rec1" }).1.modePrebuilt =
      prebuiltCheck (getField rootFieldsBlank (bundleFieldName envA)))
    ∧ ((bundleRun envA storeBlank { initiatorId := "rec1" }).1.modeAssembled =
      !prebuiltCheck (getField rootFieldsBlank (bundleFieldName envA)))
    ∧ (prebuiltCheck (getField rootFieldsBlank (bundleFieldName envA)) = true ↔
        ∃ s, getField rootFieldsBlank (bundleFieldName envA) = some (FieldValue.str s)
          ∧ jsTrim s ≠ "") :=
  C9_prebuilt_iff_nonblank_string envA storeBlank { initiatorId := "rec1" } rootFieldsBlank
    (by decide) (by decide) (by decide)

/-! ## Guard uniformity (C2) -/

/-- Does an invocation outcome (possibly thrown) with a call count
satisfy the claimed uniform guard contract? -/
def exceptUniformSkip (o : Except String GuardObs) (calls : Nat) : Bool :=
  match o with
  | Except.ok g => g.uniformSkip && calls == 0
  | Except.error _ => false

/-- C2 counterexample: invoking webScrape with BROWSERBASE_API_KEY
absent throws an Error instead of returning
`{ok:false, skipped:true, reason}` — the uniform guard contract fails
for this tool (though it does make zero HTTP calls). -/
theorem C2_counterexample_webscrape_throws :
    exceptUniformSkip ((webScrapeRun {} "https://example.com").1.map WebScrapeResult.obs)
      (webScrapeRun {} "https://example.com").2.length = false
    ∧ (webScrapeRun {} "https://example.com").1 =
        Except.error "BROWSERBASE_API_KEY required for web scraping"
    ∧ (webScrapeRun {} "https://example.com").2 = [] := by
  refine ⟨by decide, rfl, rfl⟩

/-- C2 (amended): with its required key absent, each Airtable tool, the
SQL bridge and the webhook trigger return `{ok:false, skipped:true}`
with a non-empty reason and make zero outbound HTTP calls; the web
search tool instead returns a `{results:[], query, note}` object with
no ok/skipped keys, and the web scrape tool throws — both also with
zero outbound calls. -/
theorem C2_guard_by_tool (env : Env) (store : Store) (ctx : ToolCtx) (http : QueryHttp)
    (sqlHttp : SqlHttp) (postHttp : PostHttp) (pctx : FetchPersonaCtx)
    (q u sql scenario payload : String) :
    (airtableToken env = "" →
      (hydrateRun env store ctx).1.obs.uniformSkip = true ∧ (hydrateRun env store ctx).2 = [])
    ∧ (airtableToken env = "" →
      (bundleRun env store ctx).1.obs.uniformSkip = true ∧ (bundleRun env store ctx).2 = [])
    ∧ (fetchPersonaKey env = "" →
      (airtableFetchPersonaRun env http pctx).1.obs.uniformSkip = true
        ∧ (airtableFetchPersonaRun env http pctx).2 = [])
    ∧ (env.MINDSDB_URL = "" →
      (mindsdbRun env sqlHttp sql).1.obs.uniformSkip = true
        ∧ (mindsdbRun env sqlHttp sql).2 = [])
    ∧ (env.N8N_WEBHOOK_BASE = "" →
      (n8nTriggerRun env postHttp scenario payload).1.obs.uniformSkip = true
        ∧ (n8nTriggerRun env postHttp scenario payload).2 = [])
    ∧ (env.BROWSERBASE_API_KEY = "" →
      webSearchRun env q =
        (Except.ok (WebSearchResult.unconfigured [] q
          "Web search requires BROWSERBASE_API_KEY to be configured"), []))
    ∧ (env.BROWSERBASE_API_KEY = "" →
      webScrapeRun env u = (Except.error "BROWSERBASE_API_KEY required for web scraping", [])) := by
  refine ⟨?_, ?_, ?_, ?_, ?_, ?_, ?_⟩
  · intro h
    unfold hydrateRun
    rw [if_pos h]
    exact ⟨by decide, rfl⟩
  · intro h
    unfold bundleRun
    rw [if_pos h]
    exact ⟨by decide, rfl⟩
  · intro h
    unfold airtableFetchPersonaRun
    rw [h]
    simp [FetchPersonaResult.obs, GuardObs.uniformSkip]
  · intro h
    unfold mindsdbRun
    rw [if_pos h]
    exact ⟨by decide, rfl⟩
  · intro h
    unfold n8nTriggerRun
    rw [if_pos h]
    exact ⟨by decide, rfl⟩
  · intro h
    unfold webSearchRun
    rw [if_pos h]
  · intro h
    unfold webScrapeRun
    rw [if_pos h]

theorem C2_guard_by_tool_witness :
    ((hydrateRun {} (fun _ _ => FetchOutcome.httpError 0 "") ⟨"r", ""⟩).1.obs.uniformSkip = true
      ∧ (hydrateRun {} (fun _ _ => FetchOutcome.httpError 0 "") ⟨"r", ""⟩).2 = [])
    ∧ ((bundleRun {} (fun _ _ => FetchOutcome.httpError 0 "") ⟨"r", ""⟩).1.obs.uniformSkip = true
      ∧ (bundleRun {} (fun _ _ => FetchOutcome.httpError 0 "") ⟨"r", ""⟩).2 = [])
    ∧ ((airtableFetchPersonaRun {} (fun _ => ListResp.failure 0 "") ⟨"", "T", "", "s"⟩).1.obs.uniformSkip = true
      ∧ (airtableFetchPersonaRun {} (fun _ => ListResp.failure 0 "") ⟨"", "T", "", "s"⟩).2 = [])
    ∧ ((mindsdbRun {} (fun _ _ => SqlResp.failure 0 "") "SELECT 1").1.obs.uniformSkip = true
      ∧ (mindsdbRun {} (fun _ _ => SqlResp.failure 0 "") "SELECT 1").2 = [])
    ∧ ((n8nTriggerRun {} (fun _ _ => JsonResp.failure 0 "") "scn" "pl").1.obs.uniformSkip = true
      ∧ (n8nTriggerRun {} (fun _ _ => JsonResp.failure 0 "") "scn" "pl").2 = [])
    ∧ (webSearchRun {} "q" =
        (Except.ok (WebSearchResult.unconfigured [] "q"
          "Web search requires BROWSERBASE_API_KEY to be configured"), []))
    ∧ (webScrapeRun {} "u" =
        (Except.error "BROWSERBASE_API_KEY required for web scraping", [])) := by
  have h := C2_guard_by_tool {} (fun _ _ => FetchOutcome.httpError 0 "") ⟨"r", ""⟩
    (fun _ => ListResp.failure 0 "") (fun _ _ => SqlResp.failure 0 "")
    (fun _ _ => JsonResp.failure 0 "") ⟨"", "T", "", "s"⟩ "q" "u" "SELECT 1" "scn" "pl"
  exact ⟨h.1 rfl, h.2.1 rfl, h.2.2.1 rfl, h.2.2.2.1 rfl, h.2.2.2.2.1 rfl,
    h.2.2.2.2.2.1 rfl, h.2.2.2.2.2.2 rfl⟩

/-! ## Webhook URL normalization (C10) -/

lemma stripTrailingSlashes_append_slash (s : String) :
    stripTrailingSlashes (s ++ "/") = stripTrailingSlashes s := by
  unfold stripTrailingSlashes
  have h1 : ("/" : String).data = ['/'] := rfl
  rw [String.data_append, h1]
  simp

lemma stripLeadingSlashes_slash_append (s : String) :
    stripLeadingSlashes ("/" ++ s) = stripLeadingSlashes s := by
  unfold stripLeadingSlashes
  have h1 : ("/" : String).data = ['/'] := rfl
  rw [String.data_append, h1]
  simp

lemma stripTrailingSlashes_append_nonslash (s : String) (c : Char) (hc : (c == '/') = false) :
    stripTrailingSlashes (s ++ String.mk [c]) = s ++ String.mk [c] := by
  unfold stripTrailingSlashes
  have h1 : (String.mk [c]).data = [c] := rfl
  have h2 : (s ++ String.mk [c]).data = s.data ++ [c] := by rw [String.data_append, h1]
  rw [h2]
  have h3 : (s.data ++ [c]).reverse.dropWhile (fun x => x == '/') = c :: s.data.reverse := by
    simp [List.dropWhile_cons, hc]
  rw [h3]
  have h4 : (c :: s.data.reverse).reverse = s.data ++ [c] := by simp
  rw [h4, ← h2]

lemma stripTrailingSlashes_append_webhook (s : String) :
    stripTrailingSlashes (s ++ "/webhook") = s ++ "/webhook" := by
  have h1 : s ++ "/webhook" = (s ++ "/webhoo") ++ String.mk ['k'] := by
    rw [String.append_assoc]
    rfl
  rw [h1, stripTrailingSlashes_append_nonslash _ 'k' (by decide)]

lemma endsWithWebhook_append (s : String) : endsWithWebhook (s ++ "/webhook") = true := by
  unfold endsWithWebhook
  rw [String.data_append]
  rw [List.isSuffixOf]
  simp [ List.isPrefixOf_iff_prefix]

/-- C10: the webhook URL built by joinWebhookUrl is the (trailing-slash
stripped) base, followed by exactly one `/webhook` segment (not added
again when the base already ends in it), a single joining slash, and
the (leading-slash stripped) scenario; appending trailing slashes to
the base or prepending leading slashes to the scenario never changes
the result. -/
theorem C10_webhook_exactly_one_segment (base scenario : String) :
    (joinWebhookUrl base scenario =
      (if endsWithWebhook (stripTrailingSlashes base) then stripTrailingSlashes base
       else stripTrailingSlashes base ++ "/webhook") ++ "/" ++ stripLeadingSlashes scenario)
    ∧ joinWebhookUrl (base ++ "/") scenario = joinWebhookUrl base scenario
    ∧ joinWebhookUrl base ("/" ++ scenario) = joinWebhookUrl base scenario
    ∧ (endsWithWebhook (stripTrailingSlashes base) = false →
       joinWebhookUrl (stripTrailingSlashes base ++ "/webhook") scenario =
         joinWebhookUrl base scenario) := by
  refine ⟨rfl, ?_, ?_, ?_⟩
  · unfold joinWebhookUrl
    dsimp only
    rw [stripTrailingSlashes_append_slash]
  · unfold joinWebhookUrl
    dsimp only
    rw [stripLeadingSlashes_slash_append]
  · intro h
    unfold joinWebhookUrl
    dsimp only
    rw [stripTrailingSlashes_append_webhook, endsWithWebhook_append, h]
    simp

theorem C10_webhook_exactly_one_segment_witness :
    (joinWebhookUrl "https://n8n.example.com" "hook" =
      (if endsWithWebhook (stripTrailingSlashes "https://n8n.example.com")
       then stripTrailingSlashes "https://n8n.example.com"
       else stripTrailingSlashes "https://n8n.example.com" ++ "/webhook")
        ++ "/" ++ stripLeadingSlashes "hook")
    ∧ joinWebhookUrl ("https://n8n.example.com" ++ "/") "hook" =
        joinWebhookUrl "https://n8n.example.com" "hook"
    ∧ joinWebhookUrl "https://n8n.example.com" ("/" ++ "hook") =
        joinWebhookUrl "https://n8n.example.com" "hook"
    ∧ joinWebhookUrl (stripTrailingSlashes "https://n8n.example.com" ++ "/webhook") "hook" =
        joinWebhookUrl "https://n8n.example.com" "hook" := by
  have h := C10_webhook_exactly_one_segment "https://n8n.example.com" "hook"
  exact ⟨h.1, h.2.1, h.2.2.1, h.2.2.2 (by decide)⟩

/-! ## Concrete hydrate scenario (witnesses): root rec1 with
Personas=[p1,p2] (p2 blank), Entity=[e1], empty Domains/References,
and a failing (404) fetch for any other record. -/

def rootFieldsH : Fields :=
  [("Goal", FieldValue.str "G"),
   ("Personas", FieldValue.ids ["p1", "p2"]),
   ("Entity", FieldValue.ids ["e1"])]

def storeH : Store := fun t i =>
  if t == "Content Initiators" && i == "rec1" then FetchOutcome.ok rootFieldsH
  else if t == "Personas" && i == "p1" then
    FetchOutcome.ok [("XML Bundle", FieldValue.str "<persona>A</persona>")]
  else if t == "Personas" && i == "p2" then FetchOutcome.ok [("XML Bundle", FieldValue.str "")]
  else if t == "Entity" && i == "e1" then
    FetchOutcome.ok [("XML", FieldValue.str "<entity>B</entity>")]
  else FetchOutcome.httpError 404 "not found"

lemma storeH_noThrow : ∀ t i, (storeH t i).isThrows = false := by
  intro t i
  unfold storeH
  repeat first | rfl | split

theorem C1_child_failures_swallowed_witness :
    ∃ xml counts, (hydrateRun envA storeH { initiatorId := "rec1" }).1 =
      HydrateResult.success "hydrated" "rec1" xml counts :=
  C1_child_failures_swallowed envA storeH { initiatorId := "rec1" } rootFieldsH
    (by decide) (by decide) (by decide) storeH_noThrow

theorem C3_counts_resolved_not_linked_witness :
    (hydrateRun envA storeH { initiatorId := "rec1" }).1 =
      HydrateResult.success "hydrated" "rec1"
        (assembleHydratedXml "rec1" rootFieldsH
          (personaTexts envA storeH rootFieldsH) (domainTexts envA storeH rootFieldsH)
          (entityTexts envA storeH rootFieldsH) (referenceTexts envA storeH rootFieldsH))
        ⟨((relIds (getField rootFieldsH "Personas")).filter
            (fun id => resolvesNonEmpty storeH (personasTableName envA) "XML Bundle" id)).length,
          ((relIds (getField rootFieldsH "Content Domains")).filter
            (fun id => resolvesNonEmpty storeH (domainsTableName envA) "XML Bundle" id)).length,
          ((relIds (getField rootFieldsH "Entity")).filter
            (fun id => resolvesNonEmpty storeH (entitiesTableName envA) "XML" id)).length,
          ((relIds (getField rootFieldsH "References")).filter
            (fun id => resolvesNonEmpty storeH (referencesTableName envA) "XML" id)).length⟩ :=
  C3_counts_resolved_not_linked envA storeH { initiatorId := "rec1" } rootFieldsH
    (by decide) (by decide) (by decide) storeH_noThrow

def storeErr : Store := fun _ _ => FetchOutcome.httpError 500 "boom"

theorem C4_root_failure_no_children_witness :
    hydrateRun envA storeErr { initiatorId := "rec1" } =
      (HydrateResult.storeError 500 "boom", [("Content Initiators", "rec1")]) :=
  C4_root_failure_no_children envA storeErr { initiatorId := "rec1" } 500 "boom"
    (by decide) (by decide) (by decide)

theorem C5_fixed_order_no_empty_container_witness :
    (hydrateRun envA storeH { initiatorId := "rec1" }).1 =
      HydrateResult.success "hydrated" "rec1"
        (String.intercalate "\n"
          (initiatorHeader "rec1" rootFieldsH
            ++ specCategoryLines "personas" (personaTexts envA storeH rootFieldsH)
            ++ specCategoryLines "domains" (domainTexts envA storeH rootFieldsH)
            ++ specCategoryLines "entities" (entityTexts envA storeH rootFieldsH)
            ++ specCategoryLines "references" (referenceTexts envA storeH rootFieldsH)
            ++ ["</bundle>"]))
        ⟨(personaTexts envA storeH rootFieldsH).length, (domainTexts envA storeH rootFieldsH).length,
          (entityTexts envA storeH rootFieldsH).length,
          (referenceTexts envA storeH rootFieldsH).length⟩ :=
  C5_fixed_order_no_empty_container envA storeH { initiatorId := "rec1" } rootFieldsH
    (by decide) (by decide) (by decide) storeH_noThrow

theorem C6_deterministic_witness :
    hydrateRun envA storeH { initiatorId := "rec1" } =
      hydrateRun envA storeH { initiatorId := "rec1" } :=
  C6_deterministic envA storeH storeH { initiatorId := "rec1" } (fun _ _ => rfl)

end Whastra
